import Mathlib

/-!
Verification of the Go-Telegram-Bot-To-Binance signal lifecycle core.

Shallow embedding conventions:
* Go `float64` fields are modelled as exact rationals `ℚ`; `math.Round`
  (round half away from zero) is modelled exactly by `roundAway`.
* Go functions that mutate a struct through a pointer are modelled as
  functions returning the updated struct.
* Fallible operations (float division by zero, external lookups) are
  modelled with `Option` / `Except`.
-/

namespace GoBinanceBot

/-- Embeds the Go struct `AlertMessage` (unnamed/part_000, lines 231-248).
Float fields become `ℚ`. -/
structure AlertMessage where
  SignalID : String
  SignalType : String
  Symbol : String
  Timeframe : String
  Time : String
  EntryPrice : ℚ
  TP1 : ℚ
  TP2 : ℚ
  TP3 : ℚ
  SL : ℚ
  HighPrice : ℚ
  LowPrice : ℚ
  Midpoint : ℚ
  Confirmed : Bool
  Dismissed : Bool
  ManualEntryEdited : Bool
deriving Repr, DecidableEq

/-- Embeds the Go struct `UserSettings` (unnamed/part_000, lines 49-72). -/
structure UserSettings where
  MarginMode : String
  Leverage : Int
  AssetMode : String
  TradingMode : String
  AmountUSDT : ℚ
  UseSL : Bool
  AutoCalculateTPs : Bool
  TP1Percentage : ℚ
  TP2Percentage : ℚ
  TP3Percentage : ℚ
  ManualSLPercentage : ℚ
  AutoSLPercentage : ℚ
  AutoTPPercentage : ℚ
  MarketPriceTolerance : ℚ
  TP1ClosePct : ℚ
  TP2ClosePct : ℚ
  TP3ClosePct : ℚ
  TP1Enabled : Bool
  TP2Enabled : Bool
  TP3Enabled : Bool
  DynamicCalculationEnabled : Bool
  EnableToleranceInMarketMode : Bool
deriving Repr, DecidableEq

/-- Go `math.Round`: round to the nearest integer, halves away from zero. -/
def roundAway (x : ℚ) : ℤ :=
  if 0 ≤ x then ⌊x + 1 / 2⌋ else -⌊-x + 1 / 2⌋

/-- Embeds `roundToSixDecimal` (unnamed/part_000, lines 1472-1474):
`math.Round(num*1000000) / 1000000`. -/
def roundToSixDecimal (num : ℚ) : ℚ :=
  (roundAway (num * 1000000) : ℚ) / 1000000

/-- Embeds `recalculateTPAndSL` (unnamed/part_000, lines 1420-1469).
The Go function mutates `signal` in place; here the updated record is
returned. Branch structure follows the source line by line. -/
def recalculateTPAndSL (signal : AlertMessage) (settings : UserSettings) :
    AlertMessage :=
  if settings.DynamicCalculationEnabled = false then signal
  else if signal.EntryPrice ≤ 0 then signal
  else if settings.AutoCalculateTPs = true then
    if signal.SignalType = "Buy" then
      let withTP := { signal with
        TP1 := roundToSixDecimal (signal.EntryPrice * (1 + settings.AutoTPPercentage / 100)) }
      if settings.UseSL = true then
        { withTP with SL := roundToSixDecimal (signal.EntryPrice * (1 - settings.AutoSLPercentage / 100)) }
      else withTP
    else if signal.SignalType = "Sell" then
      let withTP := { signal with
        TP1 := roundToSixDecimal (signal.EntryPrice * (1 - settings.AutoTPPercentage / 100)) }
      if settings.UseSL = true then
        { withTP with SL := roundToSixDecimal (signal.EntryPrice * (1 + settings.AutoSLPercentage / 100)) }
      else withTP
    else signal
  else
    if signal.SignalType = "Buy" then
      let withTP := { signal with
        TP1 := roundToSixDecimal (signal.EntryPrice * (1 + settings.TP1Percentage / 100)),
        TP2 := roundToSixDecimal (signal.EntryPrice * (1 + settings.TP2Percentage / 100)),
        TP3 := roundToSixDecimal (signal.EntryPrice * (1 + settings.TP3Percentage / 100)) }
      if settings.UseSL = true then
        { withTP with SL := roundToSixDecimal (signal.EntryPrice * (1 - settings.ManualSLPercentage / 100)) }
      else withTP
    else if signal.SignalType = "Sell" then
      let withTP := { signal with
        TP1 := roundToSixDecimal (signal.EntryPrice * (1 - settings.TP1Percentage / 100)),
        TP2 := roundToSixDecimal (signal.EntryPrice * (1 - settings.TP2Percentage / 100)),
        TP3 := roundToSixDecimal (signal.EntryPrice * (1 - settings.TP3Percentage / 100)) }
      if settings.UseSL = true then
        { withTP with SL := roundToSixDecimal (signal.EntryPrice * (1 + settings.ManualSLPercentage / 100)) }
      else withTP
    else signal

/-! Bounds on half-away-from-zero rounding. -/

lemma roundAway_le (x : ℚ) : (roundAway x : ℚ) ≤ x + 1 / 2 := by
  unfold roundAway
  split
  · exact_mod_cast Int.floor_le (x + 1 / 2)
  · push_cast
    have h := Int.sub_one_lt_floor (-x + 1 / 2)
    have : (-x + 1 / 2) - 1 < (⌊-x + 1 / 2⌋ : ℚ) := h
    linarith

lemma le_roundAway (x : ℚ) : x - 1 / 2 ≤ (roundAway x : ℚ) := by
  unfold roundAway
  split
  · have h := Int.sub_one_lt_floor (x + 1 / 2)
    have : (x + 1 / 2) - 1 < (⌊x + 1 / 2⌋ : ℚ) := h
    linarith
  · push_cast
    have h := Int.floor_le (-x + 1 / 2)
    linarith

lemma roundToSixDecimal_le (y : ℚ) :
    roundToSixDecimal y ≤ y + 1 / 2000000 := by
  unfold roundToSixDecimal
  have h := roundAway_le (y * 1000000)
  rw [div_le_iff₀ (by norm_num : (0:ℚ) < 1000000)]
  linarith

lemma le_roundToSixDecimal (y : ℚ) :
    y - 1 / 2000000 ≤ roundToSixDecimal y := by
  unfold roundToSixDecimal
  have h := le_roundAway (y * 1000000)
  rw [le_div_iff₀ (by norm_num : (0:ℚ) < 1000000)]
  linarith

lemma lt_roundToSixDecimal_add {e d : ℚ} (hd : 1 / 2000000 < d) :
    e < roundToSixDecimal (e + d) := by
  have h := le_roundToSixDecimal (e + d)
  linarith

lemma roundToSixDecimal_sub_lt {e d : ℚ} (hd : 1 / 2000000 < d) :
    roundToSixDecimal (e - d) < e := by
  have h := roundToSixDecimal_le (e - d)
  linarith

/-! Concrete records used by the claims below. -/

/-- A Buy signal with entry price 100 and no precomputed levels. -/
def buySignal100 : AlertMessage :=
  { SignalID := "sig1", SignalType := "Buy", Symbol := "BTCUSDT",
    Timeframe := "1h", Time := "t", EntryPrice := 100, TP1 := 0, TP2 := 0,
    TP3 := 0, SL := 0, HighPrice := 0, LowPrice := 0, Midpoint := 0,
    Confirmed := false, Dismissed := false, ManualEntryEdited := false }

/-- The default settings produced by `UserSettingsStore.Get`
(unnamed/part_000, lines 104-127). -/
def defaultSettings : UserSettings :=
  { MarginMode := "Cross", Leverage := 5, AssetMode := "Multi",
    TradingMode := "Market", AmountUSDT := 100, UseSL := false,
    AutoCalculateTPs := false, TP1Percentage := 3 / 4, TP2Percentage := 3 / 2,
    TP3Percentage := 2, ManualSLPercentage := 1, AutoSLPercentage := 1,
    AutoTPPercentage := 1, MarketPriceTolerance := 0, TP1ClosePct := 60,
    TP2ClosePct := 20, TP3ClosePct := 20, TP1Enabled := true,
    TP2Enabled := true, TP3Enabled := true,
    DynamicCalculationEnabled := true, EnableToleranceInMarketMode := true }

/-! Claim C1: manual-mode recalculation places TPs strictly beyond the
entry price and SL strictly on the other side. -/

/-- Manual-mode settings with a zero TP1 percentage: dynamic recalculation
on, auto-calc off, stop loss on. -/
def c1ZeroPctSettings : UserSettings :=
  { defaultSettings with TP1Percentage := 0, UseSL := true }

/-- C1 counterexample: with entry price 100, direction Buy, manual mode and
dynamic recalculation enabled, but `TP1Percentage = 0`, `recalculateTPAndSL`
yields `TP1 = 100 = entry`, so TP1 is NOT strictly greater than the entry
price. All hypotheses of the claim hold at this input, yet the strict
inequality fails. -/
theorem recalc_manual_strict_counterexample :
    c1ZeroPctSettings.DynamicCalculationEnabled = true ∧
    c1ZeroPctSettings.AutoCalculateTPs = false ∧
    buySignal100.SignalType = "Buy" ∧
    0 < buySignal100.EntryPrice ∧
    (recalculateTPAndSL buySignal100 c1ZeroPctSettings).TP1 =
      buySignal100.EntryPrice ∧
    ¬ buySignal100.EntryPrice <
      (recalculateTPAndSL buySignal100 c1ZeroPctSettings).TP1 := by
  refine ⟨rfl, rfl, rfl, by norm_num [buySignal100], ?_, ?_⟩ <;>
    norm_num [recalculateTPAndSL, buySignal100, c1ZeroPctSettings,
      defaultSettings, roundToSixDecimal, roundAway]

/-- C1 amended: the claim holds under the additional hypothesis that every
configured percentage moves the price by strictly more than half of the
six-decimal rounding unit, i.e. `entry * pct / 100 > 1/2000000` (with a
zero or tiny percentage the rounded TP can equal the entry, as the
counterexample shows). Then for direction Buy all three TPs are strictly
above the entry and, when stop loss is enabled, SL is strictly below; for
direction Sell all inequalities invert. -/
theorem recalc_manual_strict (signal : AlertMessage) (settings : UserSettings)
    (hdyn : settings.DynamicCalculationEnabled = true)
    (hauto : settings.AutoCalculateTPs = false)
    (hentry : 0 < signal.EntryPrice)
    (h1 : 1 / 2000000 < signal.EntryPrice * (settings.TP1Percentage / 100))
    (h2 : 1 / 2000000 < signal.EntryPrice * (settings.TP2Percentage / 100))
    (h3 : 1 / 2000000 < signal.EntryPrice * (settings.TP3Percentage / 100))
    (hsl : 1 / 2000000 <
      signal.EntryPrice * (settings.ManualSLPercentage / 100)) :
    (signal.SignalType = "Buy" →
      signal.EntryPrice < (recalculateTPAndSL signal settings).TP1 ∧
      signal.EntryPrice < (recalculateTPAndSL signal settings).TP2 ∧
      signal.EntryPrice < (recalculateTPAndSL signal settings).TP3 ∧
      (settings.UseSL = true →
        (recalculateTPAndSL signal settings).SL < signal.EntryPrice)) ∧
    (signal.SignalType = "Sell" →
      (recalculateTPAndSL signal settings).TP1 < signal.EntryPrice ∧
      (recalculateTPAndSL signal settings).TP2 < signal.EntryPrice ∧
      (recalculateTPAndSL signal settings).TP3 < signal.EntryPrice ∧
      (settings.UseSL = true →
        signal.EntryPrice < (recalculateTPAndSL signal settings).SL)) := by
  have hup : ∀ p : ℚ, 1 / 2000000 < signal.EntryPrice * (p / 100) →
      signal.EntryPrice <
        roundToSixDecimal (signal.EntryPrice * (1 + p / 100)) := by
    intro p hp
    have e1 : signal.EntryPrice * (1 + p / 100) =
        signal.EntryPrice + signal.EntryPrice * (p / 100) := by ring
    rw [e1]
    exact lt_roundToSixDecimal_add hp
  have hdown : ∀ p : ℚ, 1 / 2000000 < signal.EntryPrice * (p / 100) →
      roundToSixDecimal (signal.EntryPrice * (1 - p / 100)) <
        signal.EntryPrice := by
    intro p hp
    have e1 : signal.EntryPrice * (1 - p / 100) =
        signal.EntryPrice - signal.EntryPrice * (p / 100) := by ring
    rw [e1]
    exact roundToSixDecimal_sub_lt hp
  constructor
  · intro hbuy
    have hres : recalculateTPAndSL signal settings =
        (let withTP := { signal with
          TP1 := roundToSixDecimal (signal.EntryPrice * (1 + settings.TP1Percentage / 100)),
          TP2 := roundToSixDecimal (signal.EntryPrice * (1 + settings.TP2Percentage / 100)),
          TP3 := roundToSixDecimal (signal.EntryPrice * (1 + settings.TP3Percentage / 100)) }
        if settings.UseSL = true then
          { withTP with SL := roundToSixDecimal (signal.EntryPrice * (1 - settings.ManualSLPercentage / 100)) }
        else withTP) := by
      unfold recalculateTPAndSL
      simp [hdyn, hauto, hbuy, not_le.mpr hentry]
    rw [hres]
    cases hu : settings.UseSL <;> simp_all
  · intro hsell
    have hns : signal.SignalType ≠ "Buy" := by
      rw [hsell]; intro hc; exact absurd hc (by decide)
    have hres : recalculateTPAndSL signal settings =
        (let withTP := { signal with
          TP1 := roundToSixDecimal (signal.EntryPrice * (1 - settings.TP1Percentage / 100)),
          TP2 := roundToSixDecimal (signal.EntryPrice * (1 - settings.TP2Percentage / 100)),
          TP3 := roundToSixDecimal (signal.EntryPrice * (1 - settings.TP3Percentage / 100)) }
        if settings.UseSL = true then
          { withTP with SL := roundToSixDecimal (signal.EntryPrice * (1 + settings.ManualSLPercentage / 100)) }
        else withTP) := by
      unfold recalculateTPAndSL
      simp [hdyn, hauto, hsell, hns, not_le.mpr hentry]
    rw [hres]
    cases hu : settings.UseSL <;> simp_all

/-- Manual-mode settings with positive percentages and stop loss enabled,
for the C1 witness. -/
def c1WitSettings : UserSettings := { defaultSettings with UseSL := true }

/-- C1 witness: at entry 100 with percentages 0.75 / 1.5 / 2 / 1 the
amended theorem applies and all strict inequalities hold. -/
theorem recalc_manual_strict_witness :
    buySignal100.EntryPrice <
      (recalculateTPAndSL buySignal100 c1WitSettings).TP1 ∧
    buySignal100.EntryPrice <
      (recalculateTPAndSL buySignal100 c1WitSettings).TP2 ∧
    buySignal100.EntryPrice <
      (recalculateTPAndSL buySignal100 c1WitSettings).TP3 ∧
    (recalculateTPAndSL buySignal100 c1WitSettings).SL <
      buySignal100.EntryPrice := by
  have h := recalc_manual_strict buySignal100 c1WitSettings rfl rfl
    (by norm_num [buySignal100])
    (by norm_num [buySignal100, c1WitSettings, defaultSettings])
    (by norm_num [buySignal100, c1WitSettings, defaultSettings])
    (by norm_num [buySignal100, c1WitSettings, defaultSettings])
    (by norm_num [buySignal100, c1WitSettings, defaultSettings])
  have hb := h.1 rfl
  exact ⟨hb.1, hb.2.1, hb.2.2.1, hb.2.2.2 rfl⟩

/-! The trade-side recalculation pair from binance_trade.go. -/

/-- Embeds `recalcSingleTPAndSL` (binance_trade.go, lines 219-246): the
auto-mode recalculation applied by `ExecuteTrade`. Zeroes TP2 and TP3 and
computes TP1 and SL without rounding. -/
def recalcSingleTPAndSL (signal : AlertMessage) (settings : UserSettings) :
    AlertMessage :=
  if signal.EntryPrice ≤ 0 then signal
  else
    let tpPct := settings.AutoTPPercentage / 100
    let slPct := settings.AutoSLPercentage / 100
    let zeroed := { signal with TP2 := 0, TP3 := 0 }
    if signal.SignalType = "Sell" then
      let s1 := { zeroed with TP1 := signal.EntryPrice * (1 - tpPct) }
      if settings.UseSL = true then
        { s1 with SL := signal.EntryPrice * (1 + slPct) }
      else { s1 with SL := 0 }
    else
      let s1 := { zeroed with TP1 := signal.EntryPrice * (1 + tpPct) }
      if settings.UseSL = true then
        { s1 with SL := signal.EntryPrice * (1 - slPct) }
      else { s1 with SL := 0 }

/-- Embeds `recalcManualTPAndSL` (binance_trade.go, lines 248-279): the
manual-mode recalculation applied by `ExecuteTrade`. -/
def recalcManualTPAndSL (signal : AlertMessage) (settings : UserSettings) :
    AlertMessage :=
  if signal.EntryPrice ≤ 0 then signal
  else
    let tp1Pct := settings.TP1Percentage / 100
    let tp2Pct := settings.TP2Percentage / 100
    let tp3Pct := settings.TP3Percentage / 100
    let slPct := settings.ManualSLPercentage / 100
    if signal.SignalType = "Sell" then
      let s1 := { signal with
        TP1 := signal.EntryPrice * (1 - tp1Pct),
        TP2 := signal.EntryPrice * (1 - tp2Pct),
        TP3 := signal.EntryPrice * (1 - tp3Pct) }
      if settings.UseSL = true then
        { s1 with SL := signal.EntryPrice * (1 + slPct) }
      else { s1 with SL := 0 }
    else
      let s1 := { signal with
        TP1 := signal.EntryPrice * (1 + tp1Pct),
        TP2 := signal.EntryPrice * (1 + tp2Pct),
        TP3 := signal.EntryPrice * (1 + tp3Pct) }
      if settings.UseSL = true then
        { s1 with SL := signal.EntryPrice * (1 - slPct) }
      else { s1 with SL := 0 }

/-! Claim C5: auto-mode recalculation computes only TP1 and forces TP2/TP3
to zero. -/

/-- Auto-mode settings with dynamic recalculation enabled. -/
def c5AutoSettings : UserSettings :=
  { defaultSettings with AutoCalculateTPs := true }

/-- A Buy signal carrying non-zero TP2 and TP3 levels. -/
def c5Signal : AlertMessage := { buySignal100 with TP2 := 5, TP3 := 7 }

/-- C5 counterexample: in auto mode with dynamic recalculation enabled and
entry price 100, `recalculateTPAndSL` does NOT force TP2 and TP3 to zero:
pre-existing values 5 and 7 survive the call unchanged. -/
theorem recalc_auto_counterexample :
    c5AutoSettings.AutoCalculateTPs = true ∧
    c5AutoSettings.DynamicCalculationEnabled = true ∧
    0 < c5Signal.EntryPrice ∧
    (recalculateTPAndSL c5Signal c5AutoSettings).TP2 = 5 ∧
    (recalculateTPAndSL c5Signal c5AutoSettings).TP3 = 7 := by
  refine ⟨rfl, rfl, by norm_num [c5Signal, buySignal100], ?_, ?_⟩ <;>
    norm_num [recalculateTPAndSL, c5Signal, c5AutoSettings, buySignal100,
      defaultSettings, roundToSixDecimal, roundAway]

/-- C5 amended: in auto mode with dynamic recalculation enabled and entry
price positive, the Telegram-side `recalculateTPAndSL` computes only TP1
from the single auto TP percentage (and SL from the single auto SL
percentage when stop loss is enabled) but leaves TP2 and TP3 unchanged;
TP2 and TP3 are forced to zero by the trade-side `recalcSingleTPAndSL`,
which `ExecuteTrade` applies in auto mode before placing orders. -/
theorem recalc_auto_amended (signal : AlertMessage) (settings : UserSettings)
    (hauto : settings.AutoCalculateTPs = true)
    (hdyn : settings.DynamicCalculationEnabled = true)
    (hentry : 0 < signal.EntryPrice) :
    ((recalculateTPAndSL signal settings).TP2 = signal.TP2 ∧
     (recalculateTPAndSL signal settings).TP3 = signal.TP3) ∧
    (signal.SignalType = "Buy" →
      (recalculateTPAndSL signal settings).TP1 =
        roundToSixDecimal
          (signal.EntryPrice * (1 + settings.AutoTPPercentage / 100))) ∧
    (signal.SignalType = "Sell" →
      (recalculateTPAndSL signal settings).TP1 =
        roundToSixDecimal
          (signal.EntryPrice * (1 - settings.AutoTPPercentage / 100))) ∧
    ((recalcSingleTPAndSL signal settings).TP2 = 0 ∧
     (recalcSingleTPAndSL signal settings).TP3 = 0) ∧
    (signal.SignalType ≠ "Sell" →
      (recalcSingleTPAndSL signal settings).TP1 =
        signal.EntryPrice * (1 + settings.AutoTPPercentage / 100) ∧
      (settings.UseSL = true →
        (recalcSingleTPAndSL signal settings).SL =
          signal.EntryPrice * (1 - settings.AutoSLPercentage / 100)) ∧
      (settings.UseSL = false →
        (recalcSingleTPAndSL signal settings).SL = 0)) ∧
    (signal.SignalType = "Sell" →
      (recalcSingleTPAndSL signal settings).TP1 =
        signal.EntryPrice * (1 - settings.AutoTPPercentage / 100) ∧
      (settings.UseSL = true →
        (recalcSingleTPAndSL signal settings).SL =
          signal.EntryPrice * (1 + settings.AutoSLPercentage / 100)) ∧
      (settings.UseSL = false →
        (recalcSingleTPAndSL signal settings).SL = 0)) := by
  by_cases hb : signal.SignalType = "Buy" <;>
    by_cases hs : signal.SignalType = "Sell" <;>
      cases hu : settings.UseSL <;>
        simp_all [recalculateTPAndSL, recalcSingleTPAndSL,
          not_le.mpr hentry]

/-- C5 witness: amended theorem applied at a concrete auto-mode input. -/
theorem recalc_auto_amended_witness :
    (recalculateTPAndSL c5Signal c5AutoSettings).TP2 = c5Signal.TP2 ∧
    (recalcSingleTPAndSL c5Signal c5AutoSettings).TP2 = 0 ∧
    (recalcSingleTPAndSL c5Signal c5AutoSettings).TP3 = 0 := by
  have h := recalc_auto_amended c5Signal c5AutoSettings rfl rfl
    (by norm_num [c5Signal, buySignal100])
  exact ⟨h.1.1, h.2.2.2.1.1, h.2.2.2.1.2⟩

/-! Claim C7: recalculation is a no-op when dynamic recalculation is
disabled or the entry price is non-positive. -/

/-- C7: when `DynamicCalculationEnabled` is false, or the entry price
is at most 0, `recalculateTPAndSL` returns the signal record unchanged
in every field. -/
theorem recalculateTPAndSL_noop (signal : AlertMessage)
    (settings : UserSettings)
    (h : settings.DynamicCalculationEnabled = false ∨
      signal.EntryPrice ≤ 0) :
    recalculateTPAndSL signal settings = signal := by
  unfold recalculateTPAndSL
  rcases h with h | h
  · simp [h]
  · cases hb : settings.DynamicCalculationEnabled
    · simp
    · simp [hb, h]

/-- Settings with dynamic recalculation disabled, for the C7 witness. -/
def c7StaticSettings : UserSettings :=
  { defaultSettings with DynamicCalculationEnabled := false }

/-- A Buy signal with non-positive entry price, for the C7 witness. -/
def c7ZeroEntrySignal : AlertMessage := { buySignal100 with EntryPrice := 0 }

/-- C7 witness: both no-op cases evaluated at concrete records. -/
theorem recalculateTPAndSL_noop_witness :
    recalculateTPAndSL buySignal100 c7StaticSettings = buySignal100 ∧
    recalculateTPAndSL c7ZeroEntrySignal defaultSettings =
      c7ZeroEntrySignal := by
  constructor
  · exact recalculateTPAndSL_noop buySignal100 c7StaticSettings (Or.inl rfl)
  · exact recalculateTPAndSL_noop c7ZeroEntrySignal defaultSettings
      (Or.inr (by norm_num [c7ZeroEntrySignal, buySignal100]))

/-! Claims C2 and C8: TP close-percentage normalization. -/

/-- Sum of the three TP close-percentage weights of a settings record. -/
def sumClosePct (s : UserSettings) : ℚ :=
  s.TP1ClosePct + s.TP2ClosePct + s.TP3ClosePct

/-- Embeds `adjustTPClosePercentages` (unnamed/part_000, lines 1088-1146).
The Go function mutates `settings` in place; here the updated record is
returned. The two early `return` statements become the first two branches;
the final validation step and enabled-state update run only on the
fall-through path, as in the source. -/
def adjustTPClosePercentages (settings : UserSettings) : UserSettings :=
  let s : UserSettings := { settings with
    TP1Enabled := true, TP2Enabled := true, TP3Enabled := true }
  if 100 ≤ s.TP1ClosePct then
    { s with
      TP1ClosePct := 100, TP2ClosePct := 0, TP3ClosePct := 0,
      TP2Enabled := false, TP3Enabled := false }
  else
    let remainingPct := 100 - s.TP1ClosePct
    if remainingPct < s.TP2ClosePct then
      { s with
        TP2ClosePct := remainingPct, TP3ClosePct := 0,
        TP3Enabled := false }
    else
      let remainingPct2 := remainingPct - s.TP2ClosePct
      let s2 : UserSettings :=
        if remainingPct2 ≤ 0 then
          { s with TP3ClosePct := 0, TP3Enabled := false }
        else
          { s with TP3ClosePct := remainingPct2, TP3Enabled := true }
      let total := s2.TP1ClosePct + s2.TP2ClosePct + s2.TP3ClosePct
      let s3 : UserSettings :=
        if 100 < total then
          { s2 with
            TP3ClosePct := max 0 (100 - (s2.TP1ClosePct + s2.TP2ClosePct)) }
        else s2
      { s3 with
        TP2Enabled := decide (0 < s3.TP2ClosePct),
        TP3Enabled := decide (0 < s3.TP3ClosePct) }

/-- Stage 1 of `UserSettingsStore.Set` (unnamed/part_000, lines 148-151):
in Market mode the market price tolerance is reset to 0. -/
def setResetTolerance (s : UserSettings) : UserSettings :=
  if s.TradingMode = "Market" then { s with MarketPriceTolerance := 0 }
  else s

/-- Stage 2 of `Set` (lines 153-162): each close percentage above 100 is
clamped to 100, in order. -/
def setClampWeights (s : UserSettings) : UserSettings :=
  let b : UserSettings :=
    if 100 < s.TP1ClosePct then { s with TP1ClosePct := 100 } else s
  let c : UserSettings :=
    if 100 < b.TP2ClosePct then { b with TP2ClosePct := 100 } else b
  if 100 < c.TP3ClosePct then { c with TP3ClosePct := 100 } else c

/-- Stage 3 of `Set` (lines 164-173): if the total exceeds 100 the three
weights are scaled proportionally by `100 / total`. -/
def setScaleWeights (s : UserSettings) : UserSettings :=
  let total := s.TP1ClosePct + s.TP2ClosePct + s.TP3ClosePct
  if 100 < total then
    let ratio := 100 / total
    { s with
      TP1ClosePct := s.TP1ClosePct * ratio,
      TP2ClosePct := s.TP2ClosePct * ratio,
      TP3ClosePct := s.TP3ClosePct * ratio }
  else s

/-- Stages 4-6 of `Set` (lines 175-213): reset the enabled flags, run the
truncation cascade on TP2/TP3, then recompute the TP2/TP3 enabled flags
from the final percentages. -/
def setCascade (s : UserSettings) : UserSettings :=
  let f : UserSettings := { s with
    TP1Enabled := true, TP2Enabled := true, TP3Enabled := true }
  let g : UserSettings :=
    if 100 ≤ f.TP1ClosePct then
      { f with
        TP1ClosePct := 100, TP2ClosePct := 0, TP3ClosePct := 0,
        TP2Enabled := false, TP3Enabled := false }
    else
      let remainingPct := 100 - f.TP1ClosePct
      if remainingPct < f.TP2ClosePct then
        { f with
          TP2ClosePct := remainingPct, TP3ClosePct := 0,
          TP3Enabled := false }
      else
        let remainingPct2 := remainingPct - f.TP2ClosePct
        if remainingPct2 ≤ 0 then
          { f with TP3ClosePct := 0, TP3Enabled := false }
        else
          { f with TP3ClosePct := remainingPct2, TP3Enabled := true }
  { g with
    TP2Enabled := decide (0 < g.TP2ClosePct),
    TP3Enabled := decide (0 < g.TP3ClosePct) }

/-- Embeds the pure normalization that `UserSettingsStore.Set`
(unnamed/part_000, lines 144-228) applies to the stored settings value, as
the composition of its sequential stages; the map insertion and logging
are omitted. -/
def userSettingsSet (settings : UserSettings) : UserSettings :=
  setCascade (setScaleWeights (setClampWeights (setResetTolerance settings)))

/-- One of the three TP close-percentage weights. -/
inductive TPWeightField where
  | tp1
  | tp2
  | tp3
deriving Repr, DecidableEq

/-- Embeds the `TP1ClosePct` / `TP2ClosePct` / `TP3ClosePct` branch of
`handleNewSettingValue` (unnamed/part_000, lines 987-1012) followed by the
`userSettings.Set` call at line 1054: the parsed value is rejected outside
[0, 100]; TP2 is rejected while TP1 is at 100, TP3 while TP1+TP2 is at
100; otherwise the weight is set, `adjustTPClosePercentages` runs and the
result is normalized by `Set`. A rejected input leaves the stored settings
unchanged (the handler returns before `Set`). -/
def handleTPClosePctUpdate (settings : UserSettings) (field : TPWeightField)
    (val : ℚ) : UserSettings :=
  if val < 0 ∨ 100 < val then settings
  else
    match field with
    | .tp1 =>
        userSettingsSet
          (adjustTPClosePercentages { settings with TP1ClosePct := val })
    | .tp2 =>
        if 100 ≤ settings.TP1ClosePct then settings
        else
          userSettingsSet
            (adjustTPClosePercentages { settings with TP2ClosePct := val })
    | .tp3 =>
        if 100 ≤ settings.TP1ClosePct + settings.TP2ClosePct then settings
        else
          userSettingsSet
            (adjustTPClosePercentages { settings with TP3ClosePct := val })

lemma adjustTPClosePercentages_sum (s : UserSettings) :
    sumClosePct (adjustTPClosePercentages s) = 100 := by
  obtain ⟨mm, lev, am, tm, amt, usl, act, p1, p2, p3, msl, asl, atp, mpt,
    w1, w2, w3, e1, e2, e3, dyn, tol⟩ := s
  simp only [adjustTPClosePercentages, sumClosePct]
  split_ifs with k1 k2 k3 k4 <;> simp_all <;> linarith

lemma setCascade_sum (s : UserSettings) :
    sumClosePct (setCascade s) = 100 := by
  obtain ⟨mm, lev, am, tm, amt, usl, act, p1, p2, p3, msl, asl, atp, mpt,
    w1, w2, w3, e1, e2, e3, dyn, tol⟩ := s
  simp only [setCascade, sumClosePct]
  split_ifs with k1 k2 k3
  all_goals simp_all
  all_goals linarith

lemma userSettingsSet_sum (s : UserSettings) :
    sumClosePct (userSettingsSet s) = 100 := by
  unfold userSettingsSet
  exact setCascade_sum _

lemma adjustTPClosePercentages_TP1Enabled (s : UserSettings) :
    (adjustTPClosePercentages s).TP1Enabled = true := by
  obtain ⟨mm, lev, am, tm, amt, usl, act, p1, p2, p3, msl, asl, atp, mpt,
    w1, w2, w3, e1, e2, e3, dyn, tol⟩ := s
  simp only [adjustTPClosePercentages]
  split_ifs <;> rfl

lemma setCascade_TP1Enabled (s : UserSettings) :
    (setCascade s).TP1Enabled = true := by
  obtain ⟨mm, lev, am, tm, amt, usl, act, p1, p2, p3, msl, asl, atp, mpt,
    w1, w2, w3, e1, e2, e3, dyn, tol⟩ := s
  simp only [setCascade]
  split_ifs <;> rfl

lemma userSettingsSet_TP1Enabled (s : UserSettings) :
    (userSettingsSet s).TP1Enabled = true := by
  unfold userSettingsSet
  exact setCascade_TP1Enabled _

lemma setResetTolerance_close (s : UserSettings) :
    (setResetTolerance s).TP1ClosePct = s.TP1ClosePct ∧
    (setResetTolerance s).TP2ClosePct = s.TP2ClosePct ∧
    (setResetTolerance s).TP3ClosePct = s.TP3ClosePct := by
  unfold setResetTolerance
  split_ifs <;> simp

lemma clampScale_at_top (u : UserSettings) (hu1 : u.TP1ClosePct = 100)
    (hu2 : u.TP2ClosePct = 0) (hu3 : u.TP3ClosePct = 0) :
    setScaleWeights (setClampWeights u) = u := by
  unfold setClampWeights setScaleWeights
  norm_num [hu1, hu2, hu3]

lemma setCascade_at_top (s : UserSettings) (h : 100 ≤ s.TP1ClosePct) :
    (setCascade s).TP1ClosePct = 100 ∧ (setCascade s).TP2ClosePct = 0 ∧
    (setCascade s).TP3ClosePct = 0 ∧ (setCascade s).TP2Enabled = false ∧
    (setCascade s).TP3Enabled = false := by
  simp only [setCascade]
  simp [h]

lemma userSettingsSet_at_top (t : UserSettings) (h1 : t.TP1ClosePct = 100)
    (h2 : t.TP2ClosePct = 0) (h3 : t.TP3ClosePct = 0) :
    (userSettingsSet t).TP1ClosePct = 100 ∧
    (userSettingsSet t).TP2ClosePct = 0 ∧
    (userSettingsSet t).TP3ClosePct = 0 ∧
    (userSettingsSet t).TP2Enabled = false ∧
    (userSettingsSet t).TP3Enabled = false := by
  have hr := setResetTolerance_close t
  have hcs := clampScale_at_top (setResetTolerance t)
    (hr.1.trans h1) (hr.2.1.trans h2) (hr.2.2.trans h3)
  unfold userSettingsSet
  rw [hcs]
  exact setCascade_at_top _ (le_of_eq ((hr.1.trans h1)).symm)

lemma handleTPClosePctUpdate_sum_le (s : UserSettings) (f : TPWeightField)
    (v : ℚ) (h : sumClosePct s ≤ 100) :
    sumClosePct (handleTPClosePctUpdate s f v) ≤ 100 := by
  by_cases hv : v < 0 ∨ 100 < v
  · simp [handleTPClosePctUpdate, hv, h]
  · cases f
    · simp only [handleTPClosePctUpdate, if_neg hv]
      exact le_of_eq (userSettingsSet_sum _)
    · by_cases h1 : 100 ≤ s.TP1ClosePct
      · simp [handleTPClosePctUpdate, hv, h1, h]
      · simp only [handleTPClosePctUpdate, if_neg hv, if_neg h1]
        exact le_of_eq (userSettingsSet_sum _)
    · by_cases h1 : 100 ≤ s.TP1ClosePct + s.TP2ClosePct
      · simp [handleTPClosePctUpdate, hv, h1, h]
      · simp only [handleTPClosePctUpdate, if_neg hv, if_neg h1]
        exact le_of_eq (userSettingsSet_sum _)

lemma adjustTPClosePercentages_at_top (s : UserSettings)
    (h : 100 ≤ s.TP1ClosePct) :
    (adjustTPClosePercentages s).TP1ClosePct = 100 ∧
    (adjustTPClosePercentages s).TP2ClosePct = 0 ∧
    (adjustTPClosePercentages s).TP3ClosePct = 0 := by
  obtain ⟨mm, lev, am, tm, amt, usl, act, p1, p2, p3, msl, asl, atp, mpt,
    w1, w2, w3, e1, e2, e3, dyn, tol⟩ := s
  simp only at h
  simp only [adjustTPClosePercentages]
  simp [if_pos h]

/-- C2: the three TP close-percentage weights sum to at most 100 after
every settings update: after any `UserSettingsStore.Set`, after any
`adjustTPClosePercentages`, and after any sequence of close-percentage
update interactions in any order (starting from a state satisfying the
bound). Moreover an update setting TP1ClosePct to 100 forces TP2ClosePct
and TP3ClosePct to 0 with TP2Enabled and TP3Enabled false, and neither
operation ever sets TP1Enabled to false. -/
theorem tpClose_weights_invariant :
    (∀ s : UserSettings, sumClosePct (userSettingsSet s) ≤ 100) ∧
    (∀ s : UserSettings, sumClosePct (adjustTPClosePercentages s) ≤ 100) ∧
    (∀ (s : UserSettings) (updates : List (TPWeightField × ℚ)),
      sumClosePct s ≤ 100 →
      sumClosePct (updates.foldl
        (fun t u => handleTPClosePctUpdate t u.1 u.2) s) ≤ 100) ∧
    (∀ s : UserSettings, (userSettingsSet s).TP1Enabled = true ∧
      (adjustTPClosePercentages s).TP1Enabled = true) ∧
    (∀ s : UserSettings,
      (handleTPClosePctUpdate s .tp1 100).TP1ClosePct = 100 ∧
      (handleTPClosePctUpdate s .tp1 100).TP2ClosePct = 0 ∧
      (handleTPClosePctUpdate s .tp1 100).TP3ClosePct = 0 ∧
      (handleTPClosePctUpdate s .tp1 100).TP2Enabled = false ∧
      (handleTPClosePctUpdate s .tp1 100).TP3Enabled = false ∧
      (handleTPClosePctUpdate s .tp1 100).TP1Enabled = true) := by
  refine ⟨fun s => le_of_eq (userSettingsSet_sum s),
    fun s => le_of_eq (adjustTPClosePercentages_sum s), ?_, ?_, ?_⟩
  · intro s updates h
    induction updates generalizing s with
    | nil => exact h
    | cons u rest ih =>
        exact ih _ (handleTPClosePctUpdate_sum_le s u.1 u.2 h)
  · exact fun s => ⟨userSettingsSet_TP1Enabled s,
      adjustTPClosePercentages_TP1Enabled s⟩
  · intro s
    have hred : handleTPClosePctUpdate s .tp1 100 =
        userSettingsSet
          (adjustTPClosePercentages { s with TP1ClosePct := 100 }) := by
      unfold handleTPClosePctUpdate
      norm_num
    have ha := adjustTPClosePercentages_at_top
      { s with TP1ClosePct := (100 : ℚ) } (by simp)
    have hs := userSettingsSet_at_top _ ha.1 ha.2.1 ha.2.2
    rw [hred]
    exact ⟨hs.1, hs.2.1, hs.2.2.1, hs.2.2.2.1, hs.2.2.2.2,
      userSettingsSet_TP1Enabled _⟩

/-- C2 witness: the order-independent bound applied to the default
settings with the update sequence of spec scenario B (TP1 to 70, then
TP2 to 50), and the TP1-to-100 special case at the default settings. -/
theorem tpClose_weights_invariant_witness :
    sumClosePct ([((TPWeightField.tp1 : TPWeightField), (70 : ℚ)),
      (TPWeightField.tp2, 50)].foldl
      (fun t u => handleTPClosePctUpdate t u.1 u.2) defaultSettings) ≤ 100 ∧
    (handleTPClosePctUpdate defaultSettings .tp1 100).TP2ClosePct = 0 := by
  constructor
  · exact tpClose_weights_invariant.2.2.1 defaultSettings _
      (by norm_num [sumClosePct, defaultSettings])
  · exact (tpClose_weights_invariant.2.2.2.2 defaultSettings).2.1

/-- C8: for inputs whose three close percentages all lie in [0, 100],
`adjustTPClosePercentages` makes the weights sum to exactly 100 (not
merely at most 100); on the fall-through path TP3ClosePct is overwritten
with the remainder `100 - TP1ClosePct - TP2ClosePct` whenever that
remainder is positive, and this can raise TP3 above the value the
operator entered. -/
theorem adjust_normalizes_to_exactly_100 (s : UserSettings)
    (h1 : 0 ≤ s.TP1ClosePct) (h1b : s.TP1ClosePct ≤ 100)
    (h2 : 0 ≤ s.TP2ClosePct) (h2b : s.TP2ClosePct ≤ 100)
    (h3 : 0 ≤ s.TP3ClosePct) (h3b : s.TP3ClosePct ≤ 100) :
    sumClosePct (adjustTPClosePercentages s) = 100 ∧
    (s.TP1ClosePct < 100 → s.TP2ClosePct ≤ 100 - s.TP1ClosePct →
      0 < 100 - s.TP1ClosePct - s.TP2ClosePct →
      (adjustTPClosePercentages s).TP3ClosePct =
        100 - s.TP1ClosePct - s.TP2ClosePct) ∧
    (∃ t : UserSettings, 0 ≤ t.TP1ClosePct ∧ t.TP1ClosePct ≤ 100 ∧
      0 ≤ t.TP2ClosePct ∧ t.TP2ClosePct ≤ 100 ∧
      0 ≤ t.TP3ClosePct ∧ t.TP3ClosePct ≤ 100 ∧
      t.TP3ClosePct < (adjustTPClosePercentages t).TP3ClosePct) := by
  refine ⟨adjustTPClosePercentages_sum s, ?_, ?_⟩
  · intro ha hb hc
    obtain ⟨mm, lev, am, tm, amt, usl, act, p1, p2, p3, msl, asl, atp, mpt,
      w1, w2, w3, e1, e2, e3, dyn, tol⟩ := s
    simp only at ha hb hc
    simp only [adjustTPClosePercentages]
    split_ifs with k1 k2 k3 k4 <;> simp_all <;> linarith
  · refine ⟨{ defaultSettings with TP3ClosePct := 5 }, ?_, ?_, ?_, ?_, ?_,
      ?_, ?_⟩ <;>
      norm_num [defaultSettings, adjustTPClosePercentages]

/-- C8 witness: the exact-sum theorem applied at the default settings
(weights 60 / 20 / 20, all in range), where the fall-through remainder
100 - 60 - 20 = 20 is written into TP3. -/
theorem adjust_normalizes_to_exactly_100_witness :
    sumClosePct (adjustTPClosePercentages defaultSettings) = 100 ∧
    (adjustTPClosePercentages defaultSettings).TP3ClosePct = 20 := by
  have h := adjust_normalizes_to_exactly_100 defaultSettings
    (by norm_num [defaultSettings]) (by norm_num [defaultSettings])
    (by norm_num [defaultSettings]) (by norm_num [defaultSettings])
    (by norm_num [defaultSettings]) (by norm_num [defaultSettings])
  refine ⟨h.1, ?_⟩
  have h2 := h.2.1 (by norm_num [defaultSettings])
    (by norm_num [defaultSettings]) (by norm_num [defaultSettings])
  have hval : (100 : ℚ) - defaultSettings.TP1ClosePct -
      defaultSettings.TP2ClosePct = 20 := by norm_num [defaultSettings]
  rw [hval] at h2
  exact h2

/-! Claim C3: terminal flags and immutability of confirmed or dismissed
records. -/

/-- Projections of `recalculateTPAndSL` that are never written: the
function only writes TP1, TP2, TP3 and SL. -/
lemma recalculateTPAndSL_preserves (signal : AlertMessage)
    (settings : UserSettings) :
    (recalculateTPAndSL signal settings).Confirmed = signal.Confirmed ∧
    (recalculateTPAndSL signal settings).Dismissed = signal.Dismissed ∧
    (recalculateTPAndSL signal settings).EntryPrice = signal.EntryPrice := by
  unfold recalculateTPAndSL
  split_ifs <;> simp

/-- Embeds the store mutation performed by `confirmSignal`
(unnamed/part_000, lines 1189-1218): the flag is set unconditionally, with
no check of `Dismissed`; no price field is written (the trade submission
reads a fresh filtered copy). -/
def confirmRecord (signal : AlertMessage) : AlertMessage :=
  { signal with Confirmed := true }

/-- Embeds the store mutation performed by `dismissSignal`
(unnamed/part_000, lines 1228-1247): the flag is set unconditionally, with
no check of `Confirmed`. -/
def dismissRecord (signal : AlertMessage) : AlertMessage :=
  { signal with Dismissed := true }

/-- Embeds the record mutation of `handleNewFieldValue` for the field
"Entry Price" with a successfully parsed value (unnamed/part_000, lines
1367-1382): the entry price is overwritten, `ManualEntryEdited` is set and
the TP/SL levels are recalculated. No terminal-flag check is performed. -/
def editEntryRecord (signal : AlertMessage) (settings : UserSettings)
    (value : ℚ) : AlertMessage :=
  recalculateTPAndSL
    { signal with EntryPrice := value, ManualEntryEdited := true } settings

/-- The operator actions that mutate a stored signal record. -/
inductive SignalOp where
  | confirm
  | dismiss
  | editEntry (settings : UserSettings) (value : ℚ)
deriving Repr, DecidableEq

/-- Applies one operator action to a record, as dispatched by
`handleCallbackQuery` and `handleMessage`. -/
def applySignalOp (signal : AlertMessage) : SignalOp → AlertMessage
  | .confirm => confirmRecord signal
  | .dismiss => dismissRecord signal
  | .editEntry settings value => editEntryRecord signal settings value

/-- A history of operator actions applied to a record, in order. -/
def applySignalOps (signal : AlertMessage) (ops : List SignalOp) :
    AlertMessage :=
  ops.foldl applySignalOp signal

lemma applySignalOps_confirmed (ops : List SignalOp) :
    ∀ signal : AlertMessage,
      (applySignalOps signal ops).Confirmed = true →
      signal.Confirmed = true ∨ SignalOp.confirm ∈ ops := by
  induction ops with
  | nil => intro signal h; exact Or.inl h
  | cons op rest ih =>
      intro signal h
      rcases ih (applySignalOp signal op) h with h1 | h1
      · cases op with
        | confirm => exact Or.inr (List.mem_cons_self _ _)
        | dismiss => exact Or.inl h1
        | editEntry st v =>
            left
            have hp := (recalculateTPAndSL_preserves
              { signal with EntryPrice := v, ManualEntryEdited := true }
              st).1
            simp only [applySignalOp, editEntryRecord] at h1
            rw [hp] at h1
            simpa using h1
      · exact Or.inr (List.mem_cons_of_mem _ h1)

lemma applySignalOps_dismissed (ops : List SignalOp) :
    ∀ signal : AlertMessage,
      (applySignalOps signal ops).Dismissed = true →
      signal.Dismissed = true ∨ SignalOp.dismiss ∈ ops := by
  induction ops with
  | nil => intro signal h; exact Or.inl h
  | cons op rest ih =>
      intro signal h
      rcases ih (applySignalOp signal op) h with h1 | h1
      · cases op with
        | confirm => exact Or.inl h1
        | dismiss => exact Or.inr (List.mem_cons_self _ _)
        | editEntry st v =>
            left
            have hp := (recalculateTPAndSL_preserves
              { signal with EntryPrice := v, ManualEntryEdited := true }
              st).2.1
            simp only [applySignalOp, editEntryRecord] at h1
            rw [hp] at h1
            simpa using h1
      · exact Or.inr (List.mem_cons_of_mem _ h1)

/-- C3 counterexample: from a fresh record, dismissing and then confirming
leaves BOTH flags true (so the at-most-one invariant fails for a reachable
record), and editing the entry price of an already-confirmed record still
mutates its entry price. -/
theorem terminal_flags_counterexample :
    buySignal100.Confirmed = false ∧
    buySignal100.Dismissed = false ∧
    (applySignalOps buySignal100
      [SignalOp.dismiss, SignalOp.confirm]).Confirmed = true ∧
    (applySignalOps buySignal100
      [SignalOp.dismiss, SignalOp.confirm]).Dismissed = true ∧
    (editEntryRecord { buySignal100 with Confirmed := true }
      defaultSettings 123).EntryPrice = 123 := by
  refine ⟨rfl, rfl, rfl, rfl, ?_⟩
  exact (recalculateTPAndSL_preserves _ _).2.2

/-- C3 amended: `confirmSignal` and `dismissSignal` set their flag
unconditionally without checking the other flag, and `handleNewFieldValue`
overwrites the entry price regardless of the flags. The at-most-one-flag
invariant therefore holds only for histories that do not apply both a
confirm and a dismiss; neither confirm nor dismiss itself writes any price
field, but field edits are not blocked on terminal records. -/
theorem terminal_flags_amended (signal : AlertMessage) (ops : List SignalOp)
    (hc : signal.Confirmed = false) (hd : signal.Dismissed = false)
    (h : SignalOp.confirm ∉ ops ∨ SignalOp.dismiss ∉ ops) :
    ¬((applySignalOps signal ops).Confirmed = true ∧
      (applySignalOps signal ops).Dismissed = true) ∧
    (∀ s : AlertMessage,
      (confirmRecord s).EntryPrice = s.EntryPrice ∧
      (confirmRecord s).TP1 = s.TP1 ∧ (confirmRecord s).TP2 = s.TP2 ∧
      (confirmRecord s).TP3 = s.TP3 ∧ (confirmRecord s).SL = s.SL ∧
      (dismissRecord s).EntryPrice = s.EntryPrice ∧
      (dismissRecord s).TP1 = s.TP1 ∧ (dismissRecord s).TP2 = s.TP2 ∧
      (dismissRecord s).TP3 = s.TP3 ∧ (dismissRecord s).SL = s.SL) ∧
    (∀ (s : AlertMessage) (st : UserSettings) (v : ℚ),
      (editEntryRecord s st v).EntryPrice = v) := by
  refine ⟨?_, ?_, ?_⟩
  · rintro ⟨hcf, hdf⟩
    rcases applySignalOps_confirmed ops signal hcf with h1 | h1
    · rw [hc] at h1; exact absurd h1 (by simp)
    · rcases applySignalOps_dismissed ops signal hdf with h2 | h2
      · rw [hd] at h2; exact absurd h2 (by simp)
      · rcases h with h3 | h3
        · exact h3 h1
        · exact h3 h2
  · intro s
    refine ⟨rfl, rfl, rfl, rfl, rfl, rfl, rfl, rfl, rfl, rfl⟩
  · intro s st v
    exact (recalculateTPAndSL_preserves _ st).2.2

/-- C3 witness: the amended invariant applied to a concrete
edit-then-confirm history that never dismisses. -/
theorem terminal_flags_amended_witness :
    ¬((applySignalOps buySignal100
        [SignalOp.editEntry defaultSettings 50, SignalOp.confirm]).Confirmed
          = true ∧
      (applySignalOps buySignal100
        [SignalOp.editEntry defaultSettings 50, SignalOp.confirm]).Dismissed
          = true) := by
  exact (terminal_flags_amended buySignal100
    [SignalOp.editEntry defaultSettings 50, SignalOp.confirm] rfl rfl
    (Or.inr (by simp))).1

/-! Claim C4: invalid numeric input during a field-editing session. -/

/-- Embeds the Go struct `EditingState` (unnamed/part_000, lines 42-46). -/
structure EditingState where
  SignalID : String
  Field : String
  SettingName : String
deriving Repr, DecidableEq

/-- Embeds the effect of `handleNewFieldValue` (unnamed/part_000, lines
1350-1417) on the signal store and the chat messages sent. The
`strconv.ParseFloat` call is modelled by the optional parsed value
`textValue` (`none` when the text does not parse as a number); `stored` is
the `signalStore.Get` result and `msgFound` the `messageStore.Get` result.
Returns the (possibly updated) store entry and the messages sent. -/
def handleNewFieldValue (editingState : EditingState)
    (textValue : Option ℚ) (stored : Option AlertMessage)
    (settings : UserSettings) (msgFound : Bool) :
    Option AlertMessage × List String :=
  match stored with
  | none => (none, ["Signal not found."])
  | some signal =>
      if editingState.Field = "Entry Price" then
        match textValue with
        | none => (some signal, ["Invalid value for Entry Price."])
        | some value =>
            let updated := recalculateTPAndSL
              { signal with EntryPrice := value, ManualEntryEdited := true }
              settings
            if msgFound = true then
              (some updated, ["Signal updated successfully."])
            else
              (some updated, ["Unable to find the message to update."])
      else (some signal, ["Unknown field."])

/-- Embeds the field-editing branch of `handleMessage` (unnamed/part_000,
lines 438-442): when the open session has a non-empty `Field`,
`handleNewFieldValue` runs and then `editingUsers.Delete` clears the
session UNCONDITIONALLY, including after a parse failure. Returns the
session state after the call, the store entry and the messages sent. -/
def handleMessageFieldBranch (editingState : EditingState)
    (textValue : Option ℚ) (stored : Option AlertMessage)
    (settings : UserSettings) (msgFound : Bool) :
    Option EditingState × Option AlertMessage × List String :=
  let r := handleNewFieldValue editingState textValue stored settings
    msgFound
  (none, r.1, r.2)

/-- An editing session open on the Entry Price field of signal sig1. -/
def c4Session : EditingState :=
  { SignalID := "sig1", Field := "Entry Price", SettingName := "" }

/-- C4 counterexample: with a session open on a signal field and text
that does not parse as a number, the error is reported, but the pending
session is CLEARED (it is `none` afterwards, not the original session),
contradicting the claim that the session is still present. -/
theorem invalid_input_counterexample :
    c4Session.Field ≠ "" ∧
    "Invalid value for Entry Price." ∈
      (handleMessageFieldBranch c4Session none (some buySignal100)
        defaultSettings true).2.2 ∧
    (handleMessageFieldBranch c4Session none (some buySignal100)
      defaultSettings true).1 = none ∧
    (handleMessageFieldBranch c4Session none (some buySignal100)
      defaultSettings true).1 ≠ some c4Session := by
  refine ⟨by simp [c4Session], ?_, rfl,
    by simp [handleMessageFieldBranch]⟩
  simp [handleMessageFieldBranch, handleNewFieldValue, c4Session]

/-- C4 amended: on unparsable text the handler reports the visible error
"Invalid value for Entry Price." and leaves the signal record unchanged,
but `handleMessage` then deletes the pending editing session
unconditionally, so the session is cleared and the operator must reopen
the field editor to retry. -/
theorem invalid_input_amended (editingState : EditingState)
    (stored : AlertMessage) (settings : UserSettings) (msgFound : Bool)
    (hf : editingState.Field = "Entry Price") :
    (handleMessageFieldBranch editingState none (some stored) settings
      msgFound).2.2 = ["Invalid value for Entry Price."] ∧
    (handleMessageFieldBranch editingState none (some stored) settings
      msgFound).2.1 = some stored ∧
    (handleMessageFieldBranch editingState none (some stored) settings
      msgFound).1 = none := by
  refine ⟨?_, ?_, rfl⟩ <;>
    simp [handleMessageFieldBranch, handleNewFieldValue, hf]

/-- C4 witness: the amended behaviour at the concrete session. -/
theorem invalid_input_amended_witness :
    (handleMessageFieldBranch c4Session none (some buySignal100)
      defaultSettings true).2.1 = some buySignal100 ∧
    (handleMessageFieldBranch c4Session none (some buySignal100)
      defaultSettings true).1 = none := by
  have h := invalid_input_amended c4Session buySignal100 defaultSettings
    true rfl
  exact ⟨h.2.1, h.2.2⟩

/-! Claim C6: market-mode price-tolerance check in sendToBinance. -/

/-- Outcome of `sendToBinance` up to the hand-off to
`binanceClient.ExecuteTrade`: only the `execute` outcome reaches the
exchange, every error outcome returns before any order is placed. The
`apiError` outcome models the `&APIError{Code, Message}` value built at
lines 1270-1275; the deviation and tolerance that the Go code formats
into the message string are carried as fields. -/
inductive SendOutcome where
  | priceFetchFailed (message : String)
  | apiError (code : Int) (diff tolerance : ℚ)
  | execute (filtered : AlertMessage)
deriving Repr, DecidableEq

/-- Embeds `sendToBinance` (unnamed/part_000, lines 1250-1300). The
result of `binanceClient.getCurrentPrice` is passed in as `currentPrice`.
The filtered signal starts from the copy built at lines 1252-1259 (Go
zero values for the unlisted fields), then TP2/TP3 are included subject
to the close-percentage budget (lines 1278-1296). -/
def sendToBinance (signal : AlertMessage) (settings : UserSettings)
    (currentPrice : Except String ℚ) : SendOutcome :=
  let filteredSignal : AlertMessage :=
    { SignalID := signal.SignalID, SignalType := signal.SignalType,
      Symbol := signal.Symbol, Timeframe := "", Time := "",
      EntryPrice := signal.EntryPrice, TP1 := signal.TP1, TP2 := 0,
      TP3 := 0, SL := signal.SL, HighPrice := 0, LowPrice := 0,
      Midpoint := 0, Confirmed := false, Dismissed := false,
      ManualEntryEdited := false }
  let proceed : AlertMessage → SendOutcome := fun fs =>
    let totalClosePct := settings.TP1ClosePct
    let step2 : AlertMessage × ℚ :=
      if settings.TP2Enabled = true ∧ totalClosePct < 100 then
        ({ fs with TP2 := signal.TP2 }, totalClosePct + settings.TP2ClosePct)
      else (fs, totalClosePct)
    let step3 : AlertMessage × ℚ :=
      if settings.TP3Enabled = true ∧ step2.2 < 100 then
        ({ step2.1 with TP3 := signal.TP3 }, step2.2 + settings.TP3ClosePct)
      else step2
    let final : AlertMessage :=
      if 100 ≤ step3.2 then { step3.1 with TP3 := 0 } else step3.1
    SendOutcome.execute final
  if settings.TradingMode = "Market" ∧
      settings.EnableToleranceInMarketMode = true then
    match currentPrice with
    | .error e => SendOutcome.priceFetchFailed e
    | .ok cp =>
        let diff := |cp - signal.EntryPrice| / signal.EntryPrice
        if settings.MarketPriceTolerance < diff then
          SendOutcome.apiError (-4131) diff settings.MarketPriceTolerance
        else proceed filteredSignal
  else proceed filteredSignal

/-- Embeds `handleBinanceError` (unnamed/part_000, lines 1568-1582):
`none` stands for an error that is not an `*APIError`; code -4131 gets
the specific price explanation, everything else the generic message
(source text reproduced up to punctuation). -/
def handleBinanceError (apiCode : Option Int) : String :=
  match apiCode with
  | none => "An unexpected error occurred. Please try again later."
  | some code =>
      if code = -4131 then
        "Trade could not be placed because the requested price is outside the allowable range. Please move closer to the current market price and try again."
      else "An unexpected error occurred. Please try again later."

/-- C6: in market mode with tolerance checking enabled, a current price
whose relative deviation from the entry exceeds the configured tolerance
makes `sendToBinance` return the distinguished APIError with code -4131
before any order is placed (the `execute` outcome is never produced), and
`handleBinanceError` maps that code to the specific price message rather
than the generic one. -/
theorem tolerance_price_drift (signal : AlertMessage)
    (settings : UserSettings) (cp : ℚ)
    (hmode : settings.TradingMode = "Market")
    (htol : settings.EnableToleranceInMarketMode = true)
    (_hentry : 0 < signal.EntryPrice)
    (hdrift : settings.MarketPriceTolerance <
      |cp - signal.EntryPrice| / signal.EntryPrice) :
    sendToBinance signal settings (Except.ok cp) =
      SendOutcome.apiError (-4131)
        (|cp - signal.EntryPrice| / signal.EntryPrice)
        settings.MarketPriceTolerance ∧
    (∀ fs : AlertMessage,
      sendToBinance signal settings (Except.ok cp) ≠
        SendOutcome.execute fs) ∧
    handleBinanceError (some (-4131)) ≠ handleBinanceError none := by
  have hres : sendToBinance signal settings (Except.ok cp) =
      SendOutcome.apiError (-4131)
        (|cp - signal.EntryPrice| / signal.EntryPrice)
        settings.MarketPriceTolerance := by
    unfold sendToBinance
    rw [if_pos ⟨hmode, htol⟩]
    simp only []
    rw [if_pos hdrift]
  refine ⟨hres, ?_, ?_⟩
  · intro fs
    rw [hres]
    simp
  · simp [handleBinanceError]

/-- Market-mode settings with tolerance 2 percent (as a fraction). -/
def c6Settings : UserSettings :=
  { defaultSettings with MarketPriceTolerance := 1 / 50 }

/-- C6 witness: entry 100, current price 105 (5 percent deviation),
tolerance 2 percent: the distinguished -4131 outcome is produced. -/
theorem tolerance_price_drift_witness :
    sendToBinance buySignal100 c6Settings (Except.ok 105) =
      SendOutcome.apiError (-4131) (1 / 20) (1 / 50) := by
  have h := tolerance_price_drift buySignal100 c6Settings 105 rfl rfl
    (by norm_num [buySignal100])
    (by norm_num [c6Settings, defaultSettings, buySignal100])
  rw [h.1]
  norm_num [c6Settings, defaultSettings, buySignal100]

/-! Claim C9: termination of the digit-counting loop in formatDecimal. -/

/-- Embeds the digit-counting loop of `formatDecimal` (binance_trade.go,
lines 502-509): `for step < 1 { step *= 10; decimalPlaces++ }`, with
explicit fuel. `none` means the loop has not finished within `fuel`
iterations; the Go loop diverges exactly when no amount of fuel
suffices. -/
def formatDecimalLoop : ℕ → ℚ → ℕ → Option ℕ
  | 0, step, acc => if step < 1 then none else some acc
  | fuel + 1, step, acc =>
      if step < 1 then formatDecimalLoop fuel (step * 10) (acc + 1)
      else some acc

/-- The loop of `formatDecimal` finishes within some finite number of
iterations. -/
def formatDecimalTerminates (step : ℚ) : Prop :=
  ∃ fuel, (formatDecimalLoop fuel step 0).isSome = true

lemma formatDecimalLoop_none_of_nonpos :
    ∀ (fuel : ℕ) (step : ℚ) (acc : ℕ), step ≤ 0 →
      formatDecimalLoop fuel step acc = none := by
  intro fuel
  induction fuel with
  | zero =>
      intro step acc h
      simp [formatDecimalLoop, lt_of_le_of_lt h one_pos]
  | succ n ih =>
      intro step acc h
      simp only [formatDecimalLoop, if_pos (lt_of_le_of_lt h one_pos)]
      exact ih (step * 10) (acc + 1)
        (mul_nonpos_of_nonpos_of_nonneg h (by norm_num))

lemma formatDecimalLoop_some_of_pow :
    ∀ (fuel : ℕ) (step : ℚ) (acc : ℕ), 1 ≤ step * 10 ^ fuel →
      (formatDecimalLoop fuel step acc).isSome = true := by
  intro fuel
  induction fuel with
  | zero =>
      intro step acc h
      rw [pow_zero, mul_one] at h
      simp [formatDecimalLoop, not_lt.mpr h]
  | succ n ih =>
      intro step acc h
      by_cases hs : step < 1
      · simp only [formatDecimalLoop, if_pos hs]
        refine ih (step * 10) (acc + 1) ?_
        calc (1:ℚ) ≤ step * 10 ^ (n + 1) := h
        _ = step * 10 * 10 ^ n := by ring
      · simp [formatDecimalLoop, hs]

/-- C9: the digit-counting loop of `formatDecimal` terminates if and only
if the step argument is strictly positive; for step at most 0 the loop
runs forever (so the quantity and price formatting in `calculateQuantity`
and `formatPrice` is well defined only for a positive parsed step or tick
size). -/
theorem formatDecimal_terminates_iff (step : ℚ) :
    formatDecimalTerminates step ↔ 0 < step := by
  constructor
  · rintro ⟨fuel, hf⟩
    by_contra hpos
    push_neg at hpos
    rw [formatDecimalLoop_none_of_nonpos fuel step 0 hpos] at hf
    simp at hf
  · intro h
    obtain ⟨n, hn⟩ :=
      pow_unbounded_of_one_lt (1 / step) (by norm_num : (1:ℚ) < 10)
    refine ⟨n, formatDecimalLoop_some_of_pow n step 0 ?_⟩
    rw [div_lt_iff₀ h] at hn
    nlinarith [hn]

/-! Claim C10: unguarded divisions in calculatePerformanceMetrics. -/

/-- Embeds the Go struct `Trade` (database source, lines 51-58); the
numeric id and timestamp are irrelevant to the metrics and omitted. -/
structure Trade where
  SignalID : String
  EntryPrice : ℚ
  ExitPrice : ℚ
  Profit : ℚ
deriving Repr, DecidableEq

/-- Checked division: Go float division `a / b` yields NaN or an infinity
exactly when `b = 0`, modelled here as `none`. -/
def qdiv (a b : ℚ) : Option ℚ :=
  if b = 0 then none else some (a / b)

/-- Embeds the Go struct `PerformanceData` (unnamed/part_000, lines
358-369). The three quotient fields (named WinLossRatio, AverageProfit
and AverageLoss in the source) use checked division, `none` marking the
division-by-zero (NaN or infinite) case. -/
structure PerformanceData where
  TotalTrades : ℤ
  WinningTrades : ℤ
  LosingTrades : ℤ
  WinLossQuot : Option ℚ
  AverageProfit : Option ℚ
  AverageLoss : Option ℚ
  TotalProfit : ℚ
  TotalLoss : ℚ
  NetProfit : ℚ
deriving Repr, DecidableEq

/-- Embeds `calculatePerformanceMetrics` (unnamed/part_000, lines
1649-1680): the counting loop treats a trade as winning when its profit
is strictly positive and as losing otherwise, then divides by the total,
winning and losing counts without any zero guard. -/
def calculatePerformanceMetrics (trades : List Trade) : PerformanceData :=
  let acc := trades.foldl
    (fun (a : ℤ × ℤ × ℤ × ℚ × ℚ) t =>
      if 0 < t.Profit then
        (a.1 + 1, a.2.1 + 1, a.2.2.1, a.2.2.2.1 + t.Profit, a.2.2.2.2)
      else
        (a.1 + 1, a.2.1, a.2.2.1 + 1, a.2.2.2.1, a.2.2.2.2 + t.Profit))
    (0, 0, 0, 0, 0)
  { TotalTrades := acc.1, WinningTrades := acc.2.1,
    LosingTrades := acc.2.2.1,
    WinLossQuot := qdiv (acc.2.1 : ℚ) (acc.1 : ℚ),
    AverageProfit := qdiv acc.2.2.2.1 (acc.2.1 : ℚ),
    AverageLoss := qdiv acc.2.2.2.2 (acc.2.2.1 : ℚ),
    TotalProfit := acc.2.2.2.1, TotalLoss := acc.2.2.2.2,
    NetProfit := acc.2.2.2.1 + acc.2.2.2.2 }

/-- C10: `calculatePerformanceMetrics` divides by the total, winning and
losing counts without a zero guard: each quotient is a division by zero
(NaN or infinite in Go, `none` here) exactly when its count is zero, so
all three results are well-defined finite numbers if and only if all
three counts are non-zero; in particular for the empty trade list all
three quotients are division-by-zero results. -/
theorem perf_metrics_div_guard (trades : List Trade) :
    ((calculatePerformanceMetrics trades).WinLossQuot = none ↔
      (calculatePerformanceMetrics trades).TotalTrades = 0) ∧
    ((calculatePerformanceMetrics trades).AverageProfit = none ↔
      (calculatePerformanceMetrics trades).WinningTrades = 0) ∧
    ((calculatePerformanceMetrics trades).AverageLoss = none ↔
      (calculatePerformanceMetrics trades).LosingTrades = 0) ∧
    ((calculatePerformanceMetrics ([] : List Trade)).WinLossQuot = none ∧
      (calculatePerformanceMetrics ([] : List Trade)).AverageProfit
        = none ∧
      (calculatePerformanceMetrics ([] : List Trade)).AverageLoss
        = none) := by
  refine ⟨?_, ?_, ?_, ?_⟩ <;>
    simp [calculatePerformanceMetrics, qdiv]

end GoBinanceBot
